import Mathlib

/-!
Verification of the collection-and-aggregation pipeline of
`jenkins_top_jobs_pyjenkins.py`.

The script is embedded shallowly: the Jenkins REST API is a black-box data
source, so every API response (job lists, job metadata, build details) is
modelled as input data, with `Option`/`Except` marking the fetches that may
be missing or raise.  Python floats are modelled as exact rationals (ℚ);
Python ints as ℤ/ℕ.  `round(x, 2)` is Python's round-half-to-even on two
decimal places, modelled exactly over ℚ.
-/

namespace JenkinsTopJobs

/-- One fetched build detail, as returned by `jc.get_build_info`:
a dict read with `binfo.get("timestamp", 0)`, `b.get("duration")`,
`b.get("result")`, so every field may be absent. -/
structure Build where
  number : Int
  timestamp : Option Int
  duration : Option Int
  result : Option String
deriving DecidableEq, Repr

/-- The slice of `jc.get_job_info(name)` the script reads: the list of recent
build references (each paired with the outcome of its `get_build_info` fetch:
`none` means the fetch raised and the build is skipped) and the optional
`url` field. -/
structure JobInfo where
  builds : List (Option Build)
  url : Option String
deriving DecidableEq, Repr

/-- One entry of `jc.get_all_jobs()`: the dict fields `fullname` and `name`,
plus the outcome of the `jc.get_job_info` call for this job (`Except.error`
means the call raised and the job is skipped). -/
structure Job where
  fullname : Option String
  name : Option String
  info : Except Unit JobInfo
deriving Repr

/-- One controller of the scan: its base URL, the outcome of the
`jc.get_whoami()` auth check, and the outcome of `jc.get_all_jobs()`
(`Except.error` models the enumeration raising, which the caller catches). -/
structure Controller where
  url : String
  whoami : Except String Unit
  jobs : Except Unit (List Job)
deriving Repr

/-- One aggregated row, mirroring the dict appended to `rows` in
`collect_controller_jobs`. -/
structure Row where
  controller : String
  job_name : String
  job_url : String
  builds : Nat
  failures : Nat
  failure_rate : Rat
  total_runtime_seconds : Rat
  avg_runtime_seconds : Rat
  longest_runtime_seconds : Rat
deriving DecidableEq, Repr

/-- Python's `round` to 0 decimals: round half to even (banker's rounding).
When the fractional part is exactly 1/2 the even neighbour is chosen;
otherwise it is ordinary rounding to the nearest integer. -/
def pyRound0 (q : Rat) : Int :=
  if q - ⌊q⌋ = 1/2 then (if Even ⌊q⌋ then ⌊q⌋ else ⌊q⌋ + 1) else round q

/-- Python's `round(x, 2)`: scale by 100, round half to even, scale back. -/
def round2 (q : Rat) : Rat :=
  (pyRound0 (q * 100) : Rat) / 100

/-- Python's `str` applied to an optional string: `str(None)` is the literal
string `"None"`. -/
def pyStr (o : Option String) : String :=
  match o with
  | none => "None"
  | some s => s

/-- Python's list slice `l[:m]` for an integer bound `m`: a nonnegative `m`
keeps the first `m` elements; a negative `m` drops the last `-m` elements
(stop index `max 0 (len + m)`). -/
def pyTake (m : Int) (l : List α) : List α :=
  if 0 ≤ m then l.take m.toNat else l.take ((l.length : Int) + m).toNat

/-- Python's `s.rstrip("/")`. -/
def pyRstripSlash (s : String) : String :=
  s.dropRightWhile (fun c => c == '/')

/-- Python's `a or b` on an optional string `a` (source: `info.get("url") or
f"..."`): `None` and the empty string are falsy. -/
def pyOrStr (a : Option String) (b : String) : String :=
  match a with
  | none => b
  | some s => if s = "" then b else s

/-- `within_window` (source lines 28-33): with no window start every
timestamp passes; otherwise the build passes iff its timestamp, converted
from milliseconds to an epoch instant, is at or after the window start.
The window start is modelled in epoch seconds (ℚ), matching the datetime
comparison `fromtimestamp(ts_ms / 1000) >= since_dt`. -/
def within_window (tsMs : Int) (sinceDt : Option Rat) : Bool :=
  match sinceDt with
  | none => true
  | some s => decide ((tsMs : Rat) / 1000 ≥ s)

/-- `fmt_seconds` (source lines 36-45): zero or negative (or falsy 0.0)
yields `"0s"`; otherwise the seconds are truncated to an integer
(`int(sec)`, truncation toward zero, here `Int.toNat ∘ Int.floor` since the
input is positive) and decomposed by `divmod` into h/m/s, omitting leading
zero units. -/
def fmt_seconds (sec : Rat) : String :=
  if sec = 0 ∨ sec ≤ 0 then "0s"
  else
    let t : Nat := (⌊sec⌋).toNat
    let m1 := t / 60
    let s := t % 60
    let h := m1 / 60
    let m := m1 % 60
    if h ≠ 0 then toString h ++ "h " ++ toString m ++ "m " ++ toString s ++ "s"
    else if m ≠ 0 then toString m ++ "m " ++ toString s ++ "s"
    else toString s ++ "s"

/-- The effective job name (source lines 58-60): `job.get("fullname") or
job.get("name")`, with `if not name: continue` — `None` and `""` are falsy
at both steps, and a falsy result skips the job. -/
def effName (j : Job) : Option String :=
  let n : Option String :=
    match j.fullname with
    | some s => if s = "" then j.name else some s
    | none => j.name
  match n with
  | some s => if s = "" then none else some s
  | none => none

/-- The duration of a build in seconds: `(b.get("duration") or 0) / 1000.0`
(a missing duration counts as 0). -/
def durSec (b : Build) : Rat :=
  ((b.duration.getD 0 : Int) : Rat) / 1000

/-- The failure predicate of the comprehension at source lines 87-91:
`str(b.get("result")) not in ("SUCCESS", "ABORTED", "None")`.  A missing
result becomes the string `"None"` via `str`, so SUCCESS, ABORTED and
missing/unknown results are excluded from the failure count. -/
def is_failure (b : Build) : Bool :=
  decide (pyStr b.result ∉ (["SUCCESS", "ABORTED", "None"] : List String))

/-- The in-window build list of a job (source lines 70-78): slice the build
references to at most `max_builds`, fetch each detail (a failed fetch —
modelled as `none` — skips that single build), and keep the builds whose
timestamp (`binfo.get("timestamp", 0)`) is within the window. -/
def inWindowBuilds (sinceDt : Option Rat) (mb : Int) (metas : List (Option Build)) : List Build :=
  (pyTake mb metas).filterMap (fun fetched =>
    match fetched with
    | none => none
    | some b => if within_window (b.timestamp.getD 0) sinceDt then some b else none)

/-- The job URL (source line 94): `info.get("url")` if truthy, else
synthesized from the controller base URL and the folder-aware job path. -/
def jobUrl (controllerUrl name : String) (infoUrl : Option String) : String :=
  pyOrStr infoUrl
    (pyRstripSlash controllerUrl ++ "/job/" ++ name.replace "/" "/job/")

/-- The row dict built at source lines 83-108 from a job's in-window builds:
counts, runtimes (ms → s), failure count and the rounded derived metrics. -/
def mkRow (controllerUrl name url : String) (builds : List Build) : Row :=
  let count := builds.length
  let total := (builds.map durSec).sum
  let avg := if count ≠ 0 then total / count else 0
  let longest := (builds.map durSec).foldr max 0
  let fails := builds.countP is_failure
  { controller := controllerUrl
    job_name := name
    job_url := url
    builds := count
    failures := fails
    failure_rate := round2 (((fails : Rat) / (count : Rat)) * 100)
    total_runtime_seconds := round2 total
    avg_runtime_seconds := round2 avg
    longest_runtime_seconds := round2 longest }

/-- The per-job body of the loop in `collect_controller_jobs` (source lines
53-108): skip jobs with a falsy name, skip jobs whose metadata fetch raised,
gather the in-window builds, skip the job when none remain, otherwise emit
one row.  (The `time.sleep` pacing at lines 55-56 is a pure side effect and
has no bearing on the produced rows.) -/
def scanJob (controllerUrl : String) (mb : Int) (sinceDt : Option Rat) (job : Job) : Option Row :=
  match effName job with
  | none => none
  | some name =>
    match job.info with
    | Except.error _ => none
    | Except.ok info =>
      if inWindowBuilds sinceDt mb info.builds = [] then none
      else some (mkRow controllerUrl name (jobUrl controllerUrl name info.url)
                  (inWindowBuilds sinceDt mb info.builds))

/-- `collect_controller_jobs` (source lines 48-110): one row per job that
survives the per-job body, in enumeration order. -/
def collect_controller_jobs (controllerUrl : String) (mb : Int) (sinceDt : Option Rat)
    (jobs : List Job) : List Row :=
  jobs.filterMap (scanJob controllerUrl mb sinceDt)

/-- The window start computed in `collect_stats` (source lines 114-116):
`since_dt = None; if days and days > 0: since_dt = now - timedelta(days)`.
For an integer, `days and days > 0` is truthy exactly when `days > 0`.
`now` is the current epoch time in seconds. -/
def mkSince (days : Int) (now : Rat) : Option Rat :=
  if 0 < days then some (now - (days : Rat) * 86400) else none

/-- The body of the per-controller loop in `collect_stats` (source lines
119-137): strip the trailing slashes off the base URL, check auth via
`get_whoami` (on failure print and skip the controller, leaving the
aggregate unchanged), then collect the controller's rows (an enumeration
failure inside `collect_controller_jobs` is caught, printed, and skips the
controller) and extend the aggregate list. -/
def controllerStep (mb : Int) (sinceDt : Option Rat) (acc : List Row) (c : Controller) :
    List Row :=
  let base := pyRstripSlash c.url
  match c.whoami with
  | Except.error _ => acc
  | Except.ok _ =>
    match c.jobs with
    | Except.error _ => acc
    | Except.ok jobs => acc ++ collect_controller_jobs base mb sinceDt jobs

/-- `collect_stats` (source lines 113-139): compute the window start, then
run the per-controller loop over an initially empty aggregate. -/
def collect_stats (mb : Int) (days : Int) (now : Rat) (controllers : List Controller) : List Row :=
  controllers.foldl (controllerStep mb (mkSince days now)) []

/-- The rows one controller contributes to the aggregate: none when auth or
enumeration fails, its scanned rows otherwise. -/
def controllerRows (mb : Int) (sinceDt : Option Rat) (c : Controller) : List Row :=
  match c.whoami with
  | Except.error _ => []
  | Except.ok _ =>
    match c.jobs with
    | Except.error _ => []
    | Except.ok jobs => collect_controller_jobs (pyRstripSlash c.url) mb sinceDt jobs

/-- The four admissible values of `--sort` (source lines 151-152). -/
inductive SortKey where
  | builds
  | total_runtime_seconds
  | avg_runtime_seconds
  | longest_runtime_seconds
deriving DecidableEq, Repr

/-- The column a sort key selects. -/
def keyOf : SortKey → Row → Rat
  | SortKey.builds, r => (r.builds : Rat)
  | SortKey.total_runtime_seconds, r => r.total_runtime_seconds
  | SortKey.avg_runtime_seconds, r => r.avg_runtime_seconds
  | SortKey.longest_runtime_seconds, r => r.longest_runtime_seconds

/-- `df.sort_values(by=key, ascending=False)` (source line 182).  pandas
computes an ascending argsort of the column and reverses the resulting
indexer for a descending sort (`nargsort`: `indexer = ...argsort(kind=kind);
if not ascending: indexer = indexer[::-1]`).  On the default `quicksort`
kind, numpy sorts short arrays (length below the introsort cutoff) by
insertion sort, which is stable, so for such inputs the result is exactly
the reverse of a stable ascending sort — modelled here as a stable merge
sort followed by `reverse`. -/
def sort_values_desc (k : SortKey) (rows : List Row) : List Row :=
  (rows.mergeSort (fun a b => decide (keyOf k a ≤ keyOf k b))).reverse

/-- `df_sorted.head(args.top)` (source line 183): pandas `head(n)` has
Python slice semantics `l[:n]`. -/
def head_preview (top : Int) (sortedRows : List Row) : List Row :=
  pyTake top sortedRows

/-! ### Helper lemmas about rounding -/

theorem abs_pyRound0_sub (q : Rat) : |(pyRound0 q : Rat) - q| ≤ 1/2 := by
  unfold pyRound0
  split
  · rename_i hfrac
    split
    · rw [abs_le]
      constructor <;> linarith
    · push_cast
      rw [abs_le]
      constructor <;> linarith
  · rw [abs_sub_comm]
    exact abs_sub_round q

theorem abs_round2_sub (q : Rat) : |round2 q - q| ≤ 1/200 := by
  have h := abs_pyRound0_sub (q * 100)
  have heq : round2 q - q = ((pyRound0 (q * 100) : Rat) - q * 100) / 100 := by
    unfold round2; ring
  rw [heq, abs_div]
  rw [abs_of_pos (by norm_num : (0:Rat) < 100)]
  linarith

theorem pyRound0_nonneg {q : Rat} (hq : 0 ≤ q) : 0 ≤ pyRound0 q := by
  have h := abs_pyRound0_sub q
  rw [abs_le] at h
  by_contra hc
  push_neg at hc
  have : pyRound0 q ≤ -1 := by omega
  have : ((pyRound0 q : Rat)) ≤ -1 := by exact_mod_cast this
  linarith

theorem pyRound0_le {q : Rat} {n : Int} (hq : q ≤ n) : pyRound0 q ≤ n := by
  have h := abs_pyRound0_sub q
  rw [abs_le] at h
  have h1 : ((pyRound0 q : Rat)) < ((n + 1 : Int) : Rat) := by push_cast; linarith
  have h2 : pyRound0 q < n + 1 := by exact_mod_cast h1
  omega

theorem round2_nonneg {q : Rat} (hq : 0 ≤ q) : 0 ≤ round2 q := by
  unfold round2
  have : (0 : Int) ≤ pyRound0 (q * 100) := pyRound0_nonneg (by positivity)
  positivity

theorem round2_le_100 {q : Rat} (hq : q ≤ 100) : round2 q ≤ 100 := by
  unfold round2
  have h1 : q * 100 ≤ ((10000 : Int) : Rat) := by push_cast; linarith
  have h2 : pyRound0 (q * 100) ≤ 10000 := pyRound0_le h1
  have h3 : ((pyRound0 (q * 100) : Rat)) ≤ 10000 := by exact_mod_cast h2
  linarith

/-! ### Inversion of the per-job scan -/

theorem scanJob_eq_some {base : String} {mb : Int} {sinceDt : Option Rat} {job : Job} {row : Row}
    (h : scanJob base mb sinceDt job = some row) :
    ∃ (name : String) (info : JobInfo), effName job = some name ∧ job.info = Except.ok info ∧
      inWindowBuilds sinceDt mb info.builds ≠ [] ∧
      row = mkRow base name (jobUrl base name info.url) (inWindowBuilds sinceDt mb info.builds) := by
  unfold scanJob at h
  split at h
  · exact absurd h (by simp)
  · rename_i name hn
    split at h
    · exact absurd h (by simp)
    · rename_i info hi
      split at h
      · exact absurd h (by simp)
      · rename_i hne
        exact ⟨name, info, hn, hi, hne, (Option.some.inj h).symm⟩

theorem mem_collect_controller_jobs {base : String} {mb : Int} {sinceDt : Option Rat}
    {jobs : List Job} {row : Row} (h : row ∈ collect_controller_jobs base mb sinceDt jobs) :
    ∃ (name : String) (info : JobInfo), inWindowBuilds sinceDt mb info.builds ≠ [] ∧
      row = mkRow base name (jobUrl base name info.url) (inWindowBuilds sinceDt mb info.builds) := by
  rcases List.mem_filterMap.mp h with ⟨job, _, hscan⟩
  rcases scanJob_eq_some hscan with ⟨name, info, _, _, hne, hrow⟩
  exact ⟨name, info, hne, hrow⟩

/-! ### Claim theorems -/

/-- C9: the runtime formatter maps any input of 0 or negative seconds to
"0s", and otherwise decomposes the seconds into hours/minutes/seconds
omitting leading zero-valued units; in particular 0 → "0s", 45 → "45s",
125 → "2m 5s", 3725 → "1h 2m 5s", -5 → "0s". -/
theorem C9_fmt_seconds_policy :
    (∀ sec : Rat, sec ≤ 0 → fmt_seconds sec = "0s") ∧
    fmt_seconds 0 = "0s" ∧ fmt_seconds 45 = "45s" ∧ fmt_seconds 125 = "2m 5s" ∧
    fmt_seconds 3725 = "1h 2m 5s" ∧ fmt_seconds (-5) = "0s" := by
  refine ⟨?_, by decide, by decide, by decide, by decide, by decide⟩
  intro sec h
  unfold fmt_seconds
  rw [if_pos (Or.inr h)]

/-- Witness for C9 at the concrete input -7. -/
theorem C9_fmt_seconds_policy_witness : fmt_seconds (-7) = "0s" :=
  C9_fmt_seconds_policy.1 (-7) (by norm_num)

/-- C10: the runtime formatter truncates fractional seconds toward zero
before decomposition: every sec with 0 < sec < 1 yields "0s" even though
the input is positive, and fmt_seconds 125.9 = "2m 5s". -/
theorem C10_fmt_seconds_truncates :
    (∀ sec : Rat, 0 < sec → sec < 1 → fmt_seconds sec = "0s") ∧
    fmt_seconds (1259/10) = "2m 5s" := by
  constructor
  · intro sec h0 h1
    have hf : ⌊sec⌋ = 0 := Int.floor_eq_zero_iff.mpr ⟨le_of_lt h0, h1⟩
    unfold fmt_seconds
    rw [if_neg (by push_neg; exact ⟨ne_of_gt h0, h0⟩)]
    simp [hf]
    decide
  · norm_num [fmt_seconds]
    decide

/-- Witness for C10 at the concrete input 1/2. -/
theorem C10_fmt_seconds_truncates_witness : fmt_seconds (1/2) = "0s" :=
  C10_fmt_seconds_truncates.1 (1/2) (by norm_num) (by norm_num)

/-- C3: the time-window filter passes every timestamp when the window start
is absent, and otherwise passes exactly the timestamps at or after the
window start; a days parameter ≤ 0 produces an absent window start, so with
--days 0 every build is included. -/
theorem C3_time_window :
    (∀ tsMs : Int, within_window tsMs none = true) ∧
    (∀ (tsMs : Int) (s : Rat), within_window tsMs (some s) = true ↔ s ≤ (tsMs : Rat) / 1000) ∧
    (∀ days : Int, days ≤ 0 → ∀ now : Rat, mkSince days now = none) ∧
    (∀ (now : Rat) (tsMs : Int), within_window tsMs (mkSince 0 now) = true) := by
  refine ⟨fun _ => rfl, fun tsMs s => ?_, fun days hd now => ?_, fun now tsMs => rfl⟩
  · simp [within_window, ge_iff_le]
  · unfold mkSince
    rw [if_neg (by omega)]

/-- Witness for C3: a negative days value yields no window start, and with
days = 0 a concrete year-old timestamp passes the filter. -/
theorem C3_time_window_witness :
    mkSince (-3) 5 = none ∧ within_window 123 (mkSince 0 7) = true :=
  ⟨C3_time_window.2.2.1 (-3) (by norm_num) 5, C3_time_window.2.2.2 7 123⟩

/-- C4: for every emitted JobStatsRow r, 0 ≤ r.failureCount ≤ r.buildCount. -/
theorem C4_failures_le_builds :
    ∀ (base : String) (mb : Int) (sinceDt : Option Rat) (jobs : List Job) (row : Row),
      row ∈ collect_controller_jobs base mb sinceDt jobs →
      0 ≤ row.failures ∧ row.failures ≤ row.builds := by
  intro base mb sinceDt jobs row hmem
  rcases mem_collect_controller_jobs hmem with ⟨name, info, hne, hrow⟩
  subst hrow
  exact ⟨Nat.zero_le _, List.countP_le_length is_failure⟩

/-- C6: a job with zero in-window builds is dropped (no row emitted), so
every emitted row has buildCount ≥ 1. -/
theorem C6_empty_window_dropped :
    (∀ (base : String) (mb : Int) (sinceDt : Option Rat) (job : Job) (info : JobInfo),
      job.info = Except.ok info → inWindowBuilds sinceDt mb info.builds = [] →
      scanJob base mb sinceDt job = none) ∧
    (∀ (base : String) (mb : Int) (sinceDt : Option Rat) (jobs : List Job) (row : Row),
      row ∈ collect_controller_jobs base mb sinceDt jobs → 1 ≤ row.builds) := by
  constructor
  · intro base mb sinceDt job info hi hb
    unfold scanJob
    cases hn : effName job with
    | none => rfl
    | some name =>
      rw [hi]
      simp [hb]
  · intro base mb sinceDt jobs row hmem
    rcases mem_collect_controller_jobs hmem with ⟨name, info, hne, hrow⟩
    subst hrow
    exact List.length_pos.mpr hne

/-- C8: at most maxBuildsPerJob (positive) build references are taken from
the job's build list, so every emitted row has buildCount ≤ maxBuildsPerJob. -/
theorem C8_max_builds_cap :
    ∀ (mb : Int), 0 < mb →
      (∀ l : List (Option Build), ((pyTake mb l).length : Int) ≤ mb) ∧
      (∀ (base : String) (sinceDt : Option Rat) (jobs : List Job) (row : Row),
        row ∈ collect_controller_jobs base mb sinceDt jobs → (row.builds : Int) ≤ mb) := by
  intro mb hmb
  have htake : ∀ l : List (Option Build), ((pyTake mb l).length : Int) ≤ mb := by
    intro l
    unfold pyTake
    rw [if_pos (le_of_lt hmb)]
    have h1 : (l.take mb.toNat).length ≤ mb.toNat := by
      simp [List.length_take]
    calc ((l.take mb.toNat).length : Int) ≤ (mb.toNat : Int) := by exact_mod_cast h1
      _ = mb := Int.toNat_of_nonneg (le_of_lt hmb)
  refine ⟨htake, ?_⟩
  intro base sinceDt jobs row hmem
  rcases mem_collect_controller_jobs hmem with ⟨name, info, hne, hrow⟩
  subst hrow
  have h2 : (inWindowBuilds sinceDt mb info.builds).length ≤ (pyTake mb info.builds).length :=
    List.length_filterMap_le _ _
  calc ((inWindowBuilds sinceDt mb info.builds).length : Int)
      ≤ ((pyTake mb info.builds).length : Int) := by exact_mod_cast h2
    _ ≤ mb := htake info.builds

/-- C2: a build counts toward failureCount iff its result is not SUCCESS,
not ABORTED, and not unknown/null (Python renders a missing result as the
string "None", so the literal string "None" is likewise excluded); ABORTED
and missing results never count, UNSTABLE and FAILURE always count; and a
row's failures field is exactly the count of builds satisfying the
predicate. -/
theorem C2_failure_predicate :
    (∀ b : Build,
      b.result ∈ ([none, some "SUCCESS", some "FAILURE", some "ABORTED", some "UNSTABLE"] :
        List (Option String)) →
      (is_failure b = true ↔
        b.result ∉ ([some "SUCCESS", some "ABORTED", none] : List (Option String)))) ∧
    (∀ b : Build, b.result = some "ABORTED" ∨ b.result = none → is_failure b = false) ∧
    (∀ b : Build, b.result = some "UNSTABLE" ∨ b.result = some "FAILURE" → is_failure b = true) ∧
    (∀ (c n u : String) (bs : List Build), (mkRow c n u bs).failures = bs.countP is_failure) := by
  refine ⟨?_, ?_, ?_, fun c n u bs => rfl⟩
  · intro b hb
    simp only [List.mem_cons, List.not_mem_nil, or_false] at hb
    rcases hb with h | h | h | h | h <;> simp [is_failure, pyStr, h]
  · intro b hb
    rcases hb with h | h <;> simp [is_failure, pyStr, h]
  · intro b hb
    rcases hb with h | h <;> simp [is_failure, pyStr, h]

theorem mkRow_fields (c n u : String) (bs : List Build) (h : bs ≠ []) :
    (mkRow c n u bs).builds = bs.length ∧
    (mkRow c n u bs).failures = bs.countP is_failure ∧
    (mkRow c n u bs).avg_runtime_seconds = round2 ((bs.map durSec).sum / (bs.length : Rat)) ∧
    (mkRow c n u bs).total_runtime_seconds = round2 ((bs.map durSec).sum) ∧
    (mkRow c n u bs).failure_rate =
      round2 (((bs.countP is_failure : Rat) / (bs.length : Rat)) * 100) := by
  refine ⟨rfl, rfl, ?_, rfl, rfl⟩
  have hlen : bs.length ≠ 0 := fun hz => h (List.length_eq_zero.mp hz)
  simp only [mkRow]
  rw [if_pos hlen]

/-- C5: for every emitted row (buildCount > 0), avgRuntimeSeconds equals
totalRuntimeSeconds / buildCount within rounding tolerance (each stored
value is rounded to 2 decimals, so they agree within 1/100),
failureRatePercent equals 100 * failureCount / buildCount rounded to 2
decimal places, and 0 ≤ failureRatePercent ≤ 100. -/
theorem C5_row_numerics :
    ∀ (base : String) (mb : Int) (sinceDt : Option Rat) (jobs : List Job) (row : Row),
      row ∈ collect_controller_jobs base mb sinceDt jobs →
      |row.avg_runtime_seconds - row.total_runtime_seconds / (row.builds : Rat)| ≤ 1/100 ∧
      row.failure_rate = round2 (100 * (row.failures : Rat) / (row.builds : Rat)) ∧
      0 ≤ row.failure_rate ∧ row.failure_rate ≤ 100 := by
  intro base mb sinceDt jobs row hmem
  rcases mem_collect_controller_jobs hmem with ⟨name, info, hne, hrow⟩
  obtain ⟨hb, hf, hav, ht, hfr⟩ := mkRow_fields base name (jobUrl base name info.url)
    (inWindowBuilds sinceDt mb info.builds) hne
  subst hrow
  rw [hb, hf, hav, ht, hfr]
  have hlen : 0 < (inWindowBuilds sinceDt mb info.builds).length := List.length_pos.mpr hne
  have hcpos : (0 : Rat) < ((inWindowBuilds sinceDt mb info.builds).length : Rat) := by
    exact_mod_cast hlen
  have hc1 : (1 : Rat) ≤ ((inWindowBuilds sinceDt mb info.builds).length : Rat) := by
    exact_mod_cast hlen
  refine ⟨?_, congrArg round2 (by ring), ?_, ?_⟩
  · have h1 := abs_round2_sub (((inWindowBuilds sinceDt mb info.builds).map durSec).sum /
      ((inWindowBuilds sinceDt mb info.builds).length : Rat))
    have h2 := abs_round2_sub (((inWindowBuilds sinceDt mb info.builds).map durSec).sum)
    have h3 : |((inWindowBuilds sinceDt mb info.builds).map durSec).sum /
        ((inWindowBuilds sinceDt mb info.builds).length : Rat) -
        round2 (((inWindowBuilds sinceDt mb info.builds).map durSec).sum) /
        ((inWindowBuilds sinceDt mb info.builds).length : Rat)| ≤ 1/200 := by
      rw [← sub_div, abs_div, abs_of_pos hcpos]
      have h4 : |((inWindowBuilds sinceDt mb info.builds).map durSec).sum -
          round2 (((inWindowBuilds sinceDt mb info.builds).map durSec).sum)| ≤ 1/200 := by
        rw [abs_sub_comm]; exact h2
      have h5 := div_le_self (abs_nonneg (((inWindowBuilds sinceDt mb info.builds).map
        durSec).sum - round2 (((inWindowBuilds sinceDt mb info.builds).map durSec).sum))) hc1
      linarith
    calc |round2 (((inWindowBuilds sinceDt mb info.builds).map durSec).sum /
            ((inWindowBuilds sinceDt mb info.builds).length : Rat)) -
          round2 (((inWindowBuilds sinceDt mb info.builds).map durSec).sum) /
            ((inWindowBuilds sinceDt mb info.builds).length : Rat)|
        ≤ _ + _ := abs_sub_le _ (((inWindowBuilds sinceDt mb info.builds).map durSec).sum /
            ((inWindowBuilds sinceDt mb info.builds).length : Rat)) _
      _ ≤ 1/100 := by linarith
  · have hq : (0 : Rat) ≤ (((inWindowBuilds sinceDt mb info.builds).countP is_failure : Rat) /
        ((inWindowBuilds sinceDt mb info.builds).length : Rat)) * 100 := by positivity
    exact round2_nonneg hq
  · have hfle : ((inWindowBuilds sinceDt mb info.builds).countP is_failure : Rat) ≤
        ((inWindowBuilds sinceDt mb info.builds).length : Rat) := by
      exact_mod_cast List.countP_le_length is_failure
        (l := inWindowBuilds sinceDt mb info.builds)
    have hdiv : ((inWindowBuilds sinceDt mb info.builds).countP is_failure : Rat) /
        ((inWindowBuilds sinceDt mb info.builds).length : Rat) ≤ 1 :=
      (div_le_one hcpos).mpr hfle
    exact round2_le_100 (by linarith)

theorem controllerStep_eq (mb : Int) (sinceDt : Option Rat) (acc : List Row) (c : Controller) :
    controllerStep mb sinceDt acc c = acc ++ controllerRows mb sinceDt c := by
  unfold controllerStep controllerRows
  cases c.whoami <;> cases c.jobs <;> simp

theorem foldl_controllerStep (mb : Int) (sinceDt : Option Rat) :
    ∀ (cs : List Controller) (acc : List Row),
      cs.foldl (controllerStep mb sinceDt) acc = acc ++ cs.flatMap (controllerRows mb sinceDt) := by
  intro cs
  induction cs with
  | nil => intro acc; simp
  | cons c cs ih =>
    intro acc
    rw [List.foldl_cons, controllerStep_eq, ih, List.flatMap_cons, List.append_assoc]

theorem collect_stats_eq_flatMap (mb days : Int) (now : Rat) (cs : List Controller) :
    collect_stats mb days now cs = cs.flatMap (controllerRows mb (mkSince days now)) := by
  unfold collect_stats
  rw [foldl_controllerStep]
  rfl

/-- C7: a controller whose authentication fails is skipped and contributes
zero rows, and the run is not aborted: the aggregate over a controller list
containing the failing controller equals the aggregate over the same list
with the failing controller removed, so every other controller's rows are
still present. -/
theorem C7_auth_failure_skipped :
    ∀ (mb days : Int) (now : Rat) (xs ys : List Controller) (c : Controller) (e : String),
      c.whoami = Except.error e →
      collect_stats mb days now (xs ++ c :: ys) = collect_stats mb days now (xs ++ ys) := by
  intro mb days now xs ys c e he
  rw [collect_stats_eq_flatMap, collect_stats_eq_flatMap]
  have hc : controllerRows mb (mkSince days now) c = [] := by
    unfold controllerRows
    rw [he]
  rw [List.flatMap_append, List.flatMap_append, List.flatMap_cons, hc]
  simp

/-- C1 (amended): the ranked output is sorted in descending order by the
chosen sort key — for all adjacent rows (a, b), a's key ≥ b's key — it is a
permutation of the input rows, and the preview is exactly the first `top`
rows of the sorted list. (The tie-order part of the original claim is
refuted separately: pandas reverses an ascending argsort for a descending
sort, so equal-keyed rows appear in reversed original order.) -/
theorem C1_ranked_output_desc :
    ∀ (k : SortKey) (rows : List Row) (top : Int),
      List.Chain' (fun a b => keyOf k b ≤ keyOf k a) (sort_values_desc k rows) ∧
      (sort_values_desc k rows).Perm rows ∧
      (0 ≤ top → head_preview top (sort_values_desc k rows) =
        (sort_values_desc k rows).take top.toNat) := by
  intro k rows top
  refine ⟨?_, ?_, fun h => ?_⟩
  · have hs := @List.sorted_mergeSort Row (fun a b => decide (keyOf k a ≤ keyOf k b))
      (fun a b c hab hbc => by
        simp only [decide_eq_true_eq] at hab hbc ⊢
        exact le_trans hab hbc)
      (fun a b => by
        simp only [Bool.or_eq_true, decide_eq_true_eq]
        exact le_total _ _)
      rows
    have hp : List.Pairwise (fun a b => keyOf k b ≤ keyOf k a) (sort_values_desc k rows) := by
      unfold sort_values_desc
      rw [List.pairwise_reverse]
      simpa using hs
    exact hp.chain'
  · exact (List.reverse_perm _).trans (List.mergeSort_perm rows _)
  · unfold head_preview pyTake
    rw [if_pos h]

/-- A row with sort-key value 5 and name "a"; all other fields zeroed. -/
def tieRowA : Row :=
  { controller := "c", job_name := "a", job_url := "", builds := 5, failures := 0,
    failure_rate := 0, total_runtime_seconds := 0, avg_runtime_seconds := 0,
    longest_runtime_seconds := 0 }

/-- A distinct row with the same sort-key value 5, name "b". -/
def tieRowB : Row :=
  { controller := "c", job_name := "b", job_url := "", builds := 5, failures := 0,
    failure_rate := 0, total_runtime_seconds := 0, avg_runtime_seconds := 0,
    longest_runtime_seconds := 0 }

/-- C1 counterexample to the tie-breaking part of the claim: two distinct
rows with equal sort keys come out of the descending sort in reversed
original order, not their original relative order as a stable descending
sort would produce. -/
theorem C1_tie_order_counterexample :
    keyOf SortKey.builds tieRowA = keyOf SortKey.builds tieRowB ∧
    tieRowA ≠ tieRowB ∧
    sort_values_desc SortKey.builds [tieRowA, tieRowB] = [tieRowB, tieRowA] ∧
    sort_values_desc SortKey.builds [tieRowA, tieRowB] ≠ [tieRowA, tieRowB] := by
  have hab : tieRowA ≠ tieRowB := by
    intro h
    exact absurd (congrArg Row.job_name h) (by decide)
  have hsort : sort_values_desc SortKey.builds [tieRowA, tieRowB] = [tieRowB, tieRowA] := by
    unfold sort_values_desc
    simp [List.mergeSort, keyOf, tieRowA, tieRowB]
  refine ⟨rfl, hab, hsort, ?_⟩
  rw [hsort]
  intro h
  exact hab (List.cons.inj h).1.symm

/-- Witness for C1 at a concrete key, row list and top value. -/
theorem C1_ranked_output_desc_witness :
    List.Chain' (fun a b => keyOf SortKey.builds b ≤ keyOf SortKey.builds a)
      (sort_values_desc SortKey.builds [tieRowA, tieRowB]) ∧
    (sort_values_desc SortKey.builds [tieRowA, tieRowB]).Perm [tieRowA, tieRowB] ∧
    head_preview 1 (sort_values_desc SortKey.builds [tieRowA, tieRowB]) =
      (sort_values_desc SortKey.builds [tieRowA, tieRowB]).take (Int.toNat 1) :=
  ⟨(C1_ranked_output_desc SortKey.builds [tieRowA, tieRowB] 1).1,
   (C1_ranked_output_desc SortKey.builds [tieRowA, tieRowB] 1).2.1,
   (C1_ranked_output_desc SortKey.builds [tieRowA, tieRowB] 1).2.2 (by norm_num)⟩

/-! ### Concrete sample data for witnesses -/

/-- A successful 60-second build. -/
def sampleBuild1 : Build :=
  { number := 1, timestamp := some 1700000000000, duration := some 60000,
    result := some "SUCCESS" }

/-- A failed 180-second build. -/
def sampleBuild2 : Build :=
  { number := 2, timestamp := some 1700000100000, duration := some 180000,
    result := some "FAILURE" }

/-- A job whose two build fetches both succeed. -/
def sampleJob : Job :=
  { fullname := some "build", name := none,
    info := Except.ok
      { builds := [some sampleBuild1, some sampleBuild2],
        url := some "https://a.example.com/job/build/" } }

/-- The one-job job list of the sample controller. -/
def sampleJobs : List Job := [sampleJob]

/-- The row the scan produces for `sampleJobs` with no window and a cap of
10 builds. -/
def sampleRow : Row :=
  { controller := "https://a.example.com", job_name := "build",
    job_url := "https://a.example.com/job/build/", builds := 2, failures := 1,
    failure_rate := 50, total_runtime_seconds := 240, avg_runtime_seconds := 120,
    longest_runtime_seconds := 180 }

theorem sample_eval :
    collect_controller_jobs "https://a.example.com" 10 none sampleJobs = [sampleRow] := by
  simp [collect_controller_jobs, sampleJobs, sampleJob, scanJob, effName, inWindowBuilds,
    pyTake, within_window, mkRow, jobUrl, pyOrStr, durSec, is_failure, pyStr,
    sampleBuild1, sampleBuild2, sampleRow, round2, pyRound0, round_eq, max_def]
  norm_num

/-- A build that started at epoch 0, outside any recent window. -/
def oldBuild : Build :=
  { number := 1, timestamp := some 0, duration := some 1000, result := some "SUCCESS" }

/-- Metadata of a job whose only build is `oldBuild`. -/
def oldJobInfo : JobInfo := { builds := [some oldBuild], url := none }

/-- A job whose only build falls outside the window. -/
def oldJob : Job := { fullname := some "old", name := none, info := Except.ok oldJobInfo }

theorem oldJob_no_inwindow : inWindowBuilds (some 1000) 10 oldJobInfo.builds = [] := by
  simp [inWindowBuilds, pyTake, within_window, oldJobInfo, oldBuild]

/-- A build whose result is UNSTABLE. -/
def unstableBuild : Build :=
  { number := 3, timestamp := some 0, duration := some 0, result := some "UNSTABLE" }

/-- A build whose result is ABORTED. -/
def abortedBuild : Build :=
  { number := 4, timestamp := some 0, duration := some 0, result := some "ABORTED" }

/-- A reachable controller holding the sample jobs. -/
def ctrlA : Controller :=
  { url := "https://a.example.com/", whoami := Except.ok (), jobs := Except.ok sampleJobs }

/-- A controller whose auth check fails. -/
def ctrlB : Controller :=
  { url := "https://b.example.com", whoami := Except.error "401", jobs := Except.ok [] }

/-! ### Remaining witnesses -/

/-- Witness for C2 at concrete UNSTABLE and ABORTED builds. -/
theorem C2_failure_predicate_witness :
    is_failure unstableBuild = true ∧ is_failure abortedBuild = false :=
  ⟨C2_failure_predicate.2.2.1 unstableBuild (Or.inl rfl),
   C2_failure_predicate.2.1 abortedBuild (Or.inl rfl)⟩

/-- Witness for C4 at the concrete sample row. -/
theorem C4_failures_le_builds_witness :
    0 ≤ sampleRow.failures ∧ sampleRow.failures ≤ sampleRow.builds :=
  C4_failures_le_builds "https://a.example.com" 10 none sampleJobs sampleRow
    (by rw [sample_eval]; exact List.mem_singleton.mpr rfl)

/-- Witness for C5 at the concrete sample row. -/
theorem C5_row_numerics_witness :
    |sampleRow.avg_runtime_seconds -
      sampleRow.total_runtime_seconds / (sampleRow.builds : Rat)| ≤ 1/100 ∧
    sampleRow.failure_rate =
      round2 (100 * (sampleRow.failures : Rat) / (sampleRow.builds : Rat)) ∧
    0 ≤ sampleRow.failure_rate ∧ sampleRow.failure_rate ≤ 100 :=
  C5_row_numerics "https://a.example.com" 10 none sampleJobs sampleRow
    (by rw [sample_eval]; exact List.mem_singleton.mpr rfl)

/-- Witness for C6: a job whose only build is out of window produces no
row, and the sample row has at least one build. -/
theorem C6_empty_window_dropped_witness :
    scanJob "https://a.example.com" 10 (some 1000) oldJob = none ∧ 1 ≤ sampleRow.builds :=
  ⟨C6_empty_window_dropped.1 "https://a.example.com" 10 (some 1000) oldJob oldJobInfo rfl
      oldJob_no_inwindow,
   C6_empty_window_dropped.2 "https://a.example.com" 10 none sampleJobs sampleRow
      (by rw [sample_eval]; exact List.mem_singleton.mpr rfl)⟩

/-- Witness for C8 with cap 10 at a concrete build list and the sample row. -/
theorem C8_max_builds_cap_witness :
    ((pyTake 10 oldJobInfo.builds).length : Int) ≤ 10 ∧ (sampleRow.builds : Int) ≤ 10 :=
  ⟨(C8_max_builds_cap 10 (by norm_num)).1 oldJobInfo.builds,
   (C8_max_builds_cap 10 (by norm_num)).2 "https://a.example.com" none sampleJobs sampleRow
      (by rw [sample_eval]; exact List.mem_singleton.mpr rfl)⟩

/-- Witness for C7: dropping the auth-failing controller B leaves the
aggregate unchanged. -/
theorem C7_auth_failure_skipped_witness :
    collect_stats 10 0 0 [ctrlA, ctrlB] = collect_stats 10 0 0 [ctrlA] :=
  C7_auth_failure_skipped 10 0 0 [ctrlA] [] ctrlB "401" rfl

end JenkinsTopJobs
